import Mathlib

/-!
# Verification of the gltfio AssetLoader pipeline

The repository exposes a single public header,
`libs/gltfio/include/gltfio/AssetLoader.h`, declaring `AssetLoader`,
`FilamentAsset`, `BufferAccessor` and `PixelAccessor`.  The parsing and
construction bodies are not part of the sources provided, so the pipeline
behaviour is modelled from the specification (each such definition says so
in its doc comment).  Machine integers are modelled as `Nat`; engine object
handles are `Nat` identifiers allocated from a counter.
-/

namespace Gltfio

/-- Modelled from the spec (data model, §3): a scene node with an optional
transform payload, optional mesh/camera/light/skin references and child
node indices.  The transform value is opaque (`Nat`). -/
structure RawNode where
  transform : Nat
  mesh : Option Nat
  camera : Option Nat
  light : Option Nat
  skin : Option Nat
  children : List Nat

/-- Modelled from the spec: one drawable piece of a mesh — attribute
accessors (attribute kind paired with accessor index), an optional index
accessor and an optional material reference. -/
structure RawPrimitive where
  attributes : List (Nat × Nat)
  indices : Option Nat
  material : Option Nat

/-- Modelled from the spec: a mesh is a list of primitives. -/
structure RawMesh where
  primitives : List RawPrimitive

/-- Modelled from the spec: a material record with factor values (opaque
`Nat`s), an optional base-color texture (image index) and a shading
model tag. -/
structure RawMaterial where
  shadingModel : Nat
  baseColorFactor : Nat
  metallicFactor : Nat
  roughnessFactor : Nat
  baseColorTexture : Option Nat

/-- Modelled from the spec: an accessor — component type, element count,
optional byte-view reference and normalization flag. -/
structure RawAccessor where
  componentType : Nat
  count : Nat
  bufferView : Option Nat
  normalized : Bool

/-- Modelled from the spec: a buffer view — a byte sub-range (offset and
length) within a buffer given by index. -/
structure RawBufferView where
  buffer : Nat
  byteOffset : Nat
  byteLength : Nat

/-- Modelled from the spec: a buffer — either named by a URI (bytes to be
fetched by the caller) or carrying embedded bytes.  A buffer with neither
URI nor embedded data expects the single embedded GLB binary chunk. -/
structure RawBuffer where
  uri : Option (List Nat)
  byteLength : Nat
  data : Option (List Nat)

/-- Modelled from the spec: an image — an external URI or an embedded
buffer-view reference, plus its pixel dimensions. -/
structure RawImage where
  uri : Option (List Nat)
  bufferView : Option Nat
  width : Nat
  height : Nat

/-- Modelled from the spec: a skin — joint node references plus an
optional inverse-bind-matrix accessor. -/
structure RawSkin where
  joints : List Nat
  inverseBindMatrices : Option Nat

/-- Modelled from the spec: a punctual light record. -/
structure RawLight where
  lightType : Nat
  intensity : Nat
  color : Nat
  range : Nat

/-- Modelled from the spec: a camera record holding opaque projection
parameters. -/
structure RawCamera where
  projection : Nat

/-- Modelled from the spec: the parsed source graph — flat lists indexed
by integer references, plus the root node indices. -/
structure RawDocument where
  roots : List Nat
  nodes : List RawNode
  meshes : List RawMesh
  materials : List RawMaterial
  accessors : List RawAccessor
  bufferViews : List RawBufferView
  buffers : List RawBuffer
  images : List RawImage
  skins : List RawSkin
  lights : List RawLight
  cameras : List RawCamera

/-- An optional index reference is in bounds when absent or strictly less
than the target list length. -/
def optInBounds (r : Option Nat) (len : Nat) : Bool :=
  match r with
  | none => true
  | some i => i < len

/-- Modelled from the spec (§3 invariant): every reference is an index
into its target list and must resolve within bounds.  Checks node
children and payload references, primitive accessor/material references,
material texture references, accessor buffer-view references, buffer-view
buffer references, image buffer-view references, and skin joint and
inverse-bind references. -/
def checkDoc (d : RawDocument) : Bool :=
  d.roots.all (fun i => i < d.nodes.length) &&
  d.nodes.all (fun n =>
    n.children.all (fun c => c < d.nodes.length) &&
    optInBounds n.mesh d.meshes.length &&
    optInBounds n.camera d.cameras.length &&
    optInBounds n.light d.lights.length &&
    optInBounds n.skin d.skins.length) &&
  d.meshes.all (fun m => m.primitives.all (fun p =>
    p.attributes.all (fun a => a.2 < d.accessors.length) &&
    optInBounds p.indices d.accessors.length &&
    optInBounds p.material d.materials.length)) &&
  d.materials.all (fun m => optInBounds m.baseColorTexture d.images.length) &&
  d.accessors.all (fun a => optInBounds a.bufferView d.bufferViews.length) &&
  d.bufferViews.all (fun v => v.buffer < d.buffers.length) &&
  d.images.all (fun i => optInBounds i.bufferView d.bufferViews.length) &&
  d.skins.all (fun s =>
    s.joints.all (fun j => j < d.nodes.length) &&
    optInBounds s.inverseBindMatrices d.accessors.length)

/-! ## Binary container (GLB) parsing -/

/-- The fixed magic value of the binary container. -/
def glbMagic : Nat := 0x46546C67

/-- The container version the parser accepts. -/
def glbVersion : Nat := 2

/-- Chunk type tag for the text (JSON) document chunk. -/
def chunkJson : Nat := 0x4E4F534A

/-- Chunk type tag for the embedded binary buffer chunk. -/
def chunkBin : Nat := 0x004E4942

/-- Modelled from the spec (§6 binary container layout): split the byte
stream following the header into `{type, length, payload}` chunks.  Each
chunk is a type cell and a length cell followed by `length` payload
cells; a declared length exceeding the remaining bytes is a truncation
and fails the parse. -/
def parseChunksF : Nat → List Nat → Option (List (Nat × List Nat))
  | _, [] => some []
  | 0, _ :: _ => none
  | _ + 1, [_] => none
  | fuel + 1, ctype :: clen :: rest =>
    if clen ≤ rest.length then
      match parseChunksF fuel (rest.drop clen) with
      | none => none
      | some chunks => some ((ctype, rest.take clen) :: chunks)
    else
      none

/-- Chunk splitting with enough fuel for any stream (each chunk consumes
at least two cells, so `bs.length` steps always suffice). -/
def parseChunks (bs : List Nat) : Option (List (Nat × List Nat)) :=
  parseChunksF bs.length bs

/-- Modelled from the spec (§4.1, §6): validate the container header
(magic, version, total length) and the chunk sequence, then require
exactly one document chunk and at most one binary chunk.  Returns the
document chunk payload and the optional embedded binary payload. -/
def parseGlb (bs : List Nat) : Option (List Nat × Option (List Nat)) :=
  match bs with
  | magic :: version :: totalLen :: rest =>
    if magic = glbMagic ∧ version = glbVersion ∧ totalLen = bs.length then
      match parseChunks rest with
      | none => none
      | some chunks =>
        let jsons := chunks.filter (fun c => c.1 = chunkJson)
        let bins := chunks.filter (fun c => c.1 = chunkBin)
        match jsons, bins with
        | [j], [] => some (j.2, none)
        | [j], [b] => some (j.2, some b.2)
        | _, _ => none
    else none
  | _ => none

/-! ## Engine object model

The rendering engine is out of scope for the repository (§1); the core
only calls a narrow creation/destruction contract against it.  It is
modelled as a counter-based allocator with a set of live objects and an
optional allocation budget (resource exhaustion: the engine may refuse to
create a requested object). -/

/-- The kinds of engine objects the pipeline creates. -/
inductive ObjKind where
  | entity
  | vertexBuffer
  | indexBuffer
  | texture
  | materialInstance
  | materialTemplate

/-- Modelled from the spec (§6 collaborator contract): the engine state —
a fresh-id counter, the list of live objects (id and kind) and an
optional remaining-allocation budget used to model resource
exhaustion. -/
structure Engine where
  nextId : Nat
  objects : List (Nat × ObjKind)
  budget : Option Nat

/-- Modelled from the spec: create one engine object of the given kind.
Fails (engine refuses the creation) when the budget is exhausted. -/
def Engine.alloc (e : Engine) (k : ObjKind) : Option (Engine × Nat) :=
  match e.budget with
  | some 0 => none
  | some (n + 1) =>
    some ({ nextId := e.nextId + 1, objects := (e.nextId, k) :: e.objects,
            budget := some n }, e.nextId)
  | none =>
    some ({ nextId := e.nextId + 1, objects := (e.nextId, k) :: e.objects,
            budget := none }, e.nextId)

/-- Allocate a list of engine objects, one per kind in the list. -/
def Engine.allocList (e : Engine) : List ObjKind → Option (Engine × List Nat)
  | [] => some (e, [])
  | k :: ks =>
    match e.alloc k with
    | none => none
    | some (e', i) =>
      match e'.allocList ks with
      | none => none
      | some (e'', is) => some (e'', i :: is)

/-- Modelled from the spec: destroy the engine objects with the given
ids (removes them from the live set). -/
def Engine.destroy (e : Engine) (ids : List Nat) : Engine :=
  { e with objects := e.objects.filter (fun o => ¬ o.1 ∈ ids) }

/-! ## Material cache -/

/-- Modelled from the spec (§4.3): a material's canonical signature,
derived from shading model plus texture/slot usage. -/
structure MatSignature where
  shadingModel : Nat
  hasBaseColorTexture : Bool
  deriving DecidableEq

/-- Modelled from the spec: the canonical signature of a material
record. -/
def canonicalSignature (m : RawMaterial) : MatSignature :=
  { shadingModel := m.shadingModel,
    hasBaseColorTexture := m.baseColorTexture.isSome }

/-- Modelled from the spec (§4.3): the material cache maps signatures to
material template object ids, shared across all load calls of one
loader. -/
structure MatCache where
  entries : List (MatSignature × Nat)

/-- Look up a signature in the cache. -/
def MatCache.find (c : MatCache) (s : MatSignature) : Option Nat :=
  (c.entries.find? (fun e => e.1 = s)).map (·.2)

/-- Modelled from the spec (§4.3): `getOrCreate` returns the existing
template for a previously seen signature; otherwise it constructs one
(an engine allocation, which can fail on exhaustion) and stores it. -/
def MatCache.getOrCreate (c : MatCache) (e : Engine) (s : MatSignature) :
    Option (MatCache × Engine × Nat) :=
  match c.find s with
  | some t => some (c, e, t)
  | none =>
    match e.alloc ObjKind.materialTemplate with
    | none => none
    | some (e', t) => some ({ entries := (s, t) :: c.entries }, e', t)

/-- Modelled from the spec (§4.3): `clear` releases every template — the
template objects are destroyed in the engine and the cache is emptied. -/
def MatCache.clear (c : MatCache) (e : Engine) : MatCache × Engine :=
  ({ entries := [] }, e.destroy (c.entries.map (·.2)))

/-! ## Resource resolver -/

/-- The attribute slot used for vertex positions. -/
def attrPosition : Nat := 0

/-- Modelled from the spec (§4.4 failure policy): the accessor component
types representable by the target geometry (the glTF component types). -/
def supportedComponent (c : Nat) : Bool :=
  c = 5120 || c = 5121 || c = 5122 || c = 5123 || c = 5125 || c = 5126

/-- The accessor indices referenced by one primitive, attributes first
then the index accessor. -/
def primAccessors (p : RawPrimitive) : List Nat :=
  p.attributes.map (·.2) ++ p.indices.toList

/-- All accessor indices referenced by primitives, in document
declaration order. -/
def docAccessorRefs (d : RawDocument) : List Nat :=
  (d.meshes.map (fun m => (m.primitives.map primAccessors).flatten)).flatten

/-- Fuel-bounded first-occurrence filter. -/
def firstSeenF : Nat → List Nat → List Nat
  | 0, _ => []
  | _ + 1, [] => []
  | fuel + 1, x :: xs => x :: firstSeenF fuel (xs.filter (fun y => ¬ y = x))

/-- Keep the first occurrence of each element, dropping later
duplicates (the spec's first-seen-wins canonicalization rule).  The
fuel `l.length` always suffices since each step strictly shortens the
list. -/
def firstSeen (l : List Nat) : List Nat :=
  firstSeenF l.length l

/-- Modelled from the spec (§4.2): the underlying buffer sub-range (byte
offset and byte length) of an accessor, read through its buffer view. -/
def accessorRange (d : RawDocument) (a : Nat) : Nat × Nat :=
  match d.accessors.get? a with
  | none => (0, 0)
  | some acc =>
    match acc.bufferView with
    | none => (0, 0)
    | some v =>
      match d.bufferViews.get? v with
      | none => (0, 0)
      | some bv => (bv.byteOffset, bv.byteLength)

/-- True when the accessor is used as an index accessor by some
primitive. -/
def accessorIsIndex (d : RawDocument) (a : Nat) : Bool :=
  d.meshes.any (fun m => m.primitives.any (fun p => p.indices = some a))

/-- Modelled from the spec (§4.2): the deduplicated resolver index — one
entry per unique referenced accessor, in first-seen document order,
pairing the accessor with its GPU buffer slot number and its underlying
buffer sub-range. -/
def resolvedIndex (d : RawDocument) : List (Nat × Nat × Nat × Nat) :=
  (firstSeen (docAccessorRefs d)).enum.map
    (fun s => (s.2, s.1, (accessorRange d s.2).1, (accessorRange d s.2).2))

/-! ## Asset plan (structural skeleton, no engine ids) -/

/-- The glTF default material used by primitives without a material
reference. -/
def defaultMaterial : RawMaterial :=
  { shadingModel := 0, baseColorFactor := 0, metallicFactor := 0,
    roughnessFactor := 0, baseColorTexture := none }

/-- The material record a primitive resolves to (the default material
when the reference is absent). -/
def materialOf (d : RawDocument) (p : RawPrimitive) : RawMaterial :=
  match p.material with
  | none => defaultMaterial
  | some i => (d.materials.get? i).getD defaultMaterial

/-- The vertex count of a primitive: the element count of its position
attribute's accessor. -/
def primVertexCount (d : RawDocument) (p : RawPrimitive) : Nat :=
  match p.attributes.find? (fun a => a.1 = attrPosition) with
  | none => 0
  | some a =>
    match d.accessors.get? a.2 with
    | none => 0
    | some acc => acc.count

/-- The position-attribute accessor index of a primitive, if any. -/
def primPositionAccessor (p : RawPrimitive) : Option Nat :=
  (p.attributes.find? (fun a => a.1 = attrPosition)).map (·.2)

/-- Structural plan of one primitive: source record, vertex count, index
accessor, canonical material signature and factor values, and texture
image reference. -/
structure PlannedPrim where
  srcPrim : RawPrimitive
  positionAccessor : Option Nat
  vertexCount : Nat
  indexAccessor : Option Nat
  signature : MatSignature
  baseColorFactor : Nat
  textureImage : Option Nat

/-- Modelled from the spec (§4.4 step 2): plan one primitive. -/
def planPrim (d : RawDocument) (p : RawPrimitive) : PlannedPrim :=
  { srcPrim := p,
    positionAccessor := primPositionAccessor p,
    vertexCount := primVertexCount d p,
    indexAccessor := p.indices,
    signature := canonicalSignature (materialOf d p),
    baseColorFactor := (materialOf d p).baseColorFactor,
    textureImage := (materialOf d p).baseColorTexture }

/-- Structural plan of one visited node: its index, parent node index,
planned primitives, skin payload, light payload and camera payload. -/
structure PlannedNode where
  node : Nat
  parent : Option Nat
  prims : List PlannedPrim
  hasSkin : Bool
  skinJoints : List Nat
  ibmAccessor : Option Nat
  light : Option RawLight
  camera : Option Nat

/-- Modelled from the spec (§4.4 steps 1-5): plan one node from its index
and the parent node index assigned by the depth-first walk. -/
def planNode (d : RawDocument) (kp : Nat × Option Nat) : PlannedNode :=
  let node := (d.nodes.get? kp.1).getD
    { transform := 0, mesh := none, camera := none, light := none,
      skin := none, children := [] }
  { node := kp.1,
    parent := kp.2,
    prims :=
      match node.mesh with
      | none => []
      | some mi =>
        match d.meshes.get? mi with
        | none => []
        | some m => m.primitives.map (planPrim d),
    hasSkin := (node.skin.bind d.skins.get?).isSome,
    skinJoints :=
      match node.skin.bind d.skins.get? with
      | none => []
      | some s => s.joints,
    ibmAccessor :=
      match node.skin.bind d.skins.get? with
      | none => none
      | some s => s.inverseBindMatrices,
    light := node.light.bind d.lights.get?,
    camera := (node.camera.bind d.cameras.get?).map (·.projection) }

/-- Modelled from the spec (§4.4): the depth-first walk from one node,
emitting (node index, parent node index) pairs in visit order.  The fuel
argument bounds the walk (a document with a reference cycle truncates
deterministically rather than diverging). -/
def dfsFrom (d : RawDocument) : Nat → Option Nat → Nat → List (Nat × Option Nat)
  | 0, _, _ => []
  | fuel + 1, parent, n =>
    match d.nodes.get? n with
    | none => []
    | some node =>
      (n, parent) :: (node.children.map (dfsFrom d fuel (some n))).flatten

/-- Modelled from the spec (§4.4): visit order over the whole document —
depth-first from each root, roots in document order. -/
def nodeOrder (d : RawDocument) : List (Nat × Option Nat) :=
  (d.roots.map (dfsFrom d d.nodes.length none)).flatten

/-! ## Deferred-load descriptors (plan level) and the asset plan -/

/-- Modelled from the spec (§4.5): a buffer is embedded when it carries
its own bytes, or references "buffer index 0 with no URI" while the
container supplied a binary chunk. -/
def bufferEmbedded (bin : Option (List Nat)) (b : RawBuffer) : Bool :=
  b.data.isSome || (b.uri.isNone && bin.isSome)

/-- Plan-level buffer descriptor: source URI, position of the destination
GPU buffer among the unique accessors, whether the destination is an
index buffer, the originating buffer-view index, and the byte range. -/
structure BufferDescrPlan where
  uri : List Nat
  accessorPos : Nat
  isIndex : Bool
  bufferViewIndex : Nat
  byteOffset : Nat
  byteSize : Nat

/-- Plan-level pixel descriptor: position of the destination texture
among the referenced images, source URI and image dimensions. -/
structure PixelDescrPlan where
  texturePos : Nat
  uri : List Nat
  width : Nat
  height : Nat

/-- Modelled from the spec (§4.5): the buffer descriptor for one unique
accessor, or `none` when its underlying buffer is embedded (embedded
data is pushed during the build step, so no descriptor is emitted). -/
def accessorDescr (d : RawDocument) (bin : Option (List Nat))
    (pos a : Nat) : Option BufferDescrPlan :=
  match d.accessors.get? a with
  | none => none
  | some acc =>
    match acc.bufferView with
    | none => none
    | some v =>
      match d.bufferViews.get? v with
      | none => none
      | some bv =>
        match d.buffers.get? bv.buffer with
        | none => none
        | some b =>
          if bufferEmbedded bin b then none
          else some
            { uri := b.uri.getD [],
              accessorPos := pos,
              isIndex := accessorIsIndex d a,
              bufferViewIndex := v,
              byteOffset := bv.byteOffset,
              byteSize := bv.byteLength }

/-- All image indices referenced by primitive materials, in document
declaration order. -/
def docImageRefs (d : RawDocument) : List Nat :=
  (d.meshes.map (fun m =>
    m.primitives.filterMap (fun p => (materialOf d p).baseColorTexture))).flatten

/-- Modelled from the spec (§4.5): the pixel descriptor for one
referenced image — emitted only when the image is named by a URI (an
embedded image needs no fetch instruction).  The region is the full
image: zero offsets and the image dimensions. -/
def imageDescr (d : RawDocument) (pos i : Nat) : Option PixelDescrPlan :=
  match d.images.get? i with
  | none => none
  | some im =>
    match im.uri with
    | none => none
    | some u =>
      some { texturePos := pos, uri := u, width := im.width, height := im.height }

/-- The structural plan of one load: planned nodes in visit order, unique
accessors and their engine-object kinds, referenced images, deferred-load
descriptors and the primitive material signatures in order. -/
structure AssetPlan where
  pnodes : List PlannedNode
  uniqueAccessors : List Nat
  accessorKinds : List ObjKind
  texImages : List Nat
  bufferDescrs : List BufferDescrPlan
  pixelDescrs : List PixelDescrPlan
  signatures : List MatSignature

/-- Modelled from the spec (§4.1-§4.5): validate the document and produce
the structural plan.  Fails on an out-of-bounds reference (parse failure)
or an unsupported accessor component type (build failure). -/
def planOf (d : RawDocument) (bin : Option (List Nat)) : Option AssetPlan :=
  if ¬ checkDoc d then none
  else if ¬ (docAccessorRefs d).all (fun a =>
      match d.accessors.get? a with
      | some acc => supportedComponent acc.componentType
      | none => false) then none
  else
    some
      { pnodes := (nodeOrder d).map (planNode d),
        uniqueAccessors := firstSeen (docAccessorRefs d),
        accessorKinds := (firstSeen (docAccessorRefs d)).map (fun a =>
          if accessorIsIndex d a then ObjKind.indexBuffer else ObjKind.vertexBuffer),
        texImages := firstSeen (docImageRefs d),
        bufferDescrs := (firstSeen (docAccessorRefs d)).enum.filterMap
          (fun s => accessorDescr d bin s.1 s.2),
        pixelDescrs := (firstSeen (docImageRefs d)).enum.filterMap
          (fun s => imageDescr d s.1 s.2),
        signatures := (((nodeOrder d).map (planNode d)).map
          (fun n => n.prims.map (·.signature))).flatten }

/-! ## The asset bundle (FilamentAsset) -/

/-- Mirrors `struct BufferAccessor` of the header: source URI, destination
vertex/index buffer handles, originating index, and byte range. -/
structure BufferAccessor where
  uri : List Nat
  vertexBuffer : Nat
  indexBuffer : Nat
  bufferIndex : Nat
  byteOffset : Nat
  byteSize : Nat

/-- Mirrors `struct PixelAccessor` of the header: source URI, destination
texture handle, mip level and pixel region. -/
structure PixelAccessor where
  uri : List Nat
  texture : Nat
  level : Nat
  xoffset : Nat
  yoffset : Nat
  width : Nat
  height : Nat

/-- One drawable bound to an entity: source node and primitive, bound
buffer and material-instance handles, and skinning data (inverse-bind
matrices represented as (source accessor, joint position) pairs, and
joint-attribute sizes). -/
structure Drawable where
  node : Nat
  entity : Nat
  prim : RawPrimitive
  vertexBuffer : Nat
  indexBuffer : Option Nat
  materialInstance : Nat
  inverseBindMatrices : List (Option Nat × Nat)
  jointIndicesSize : Nat
  jointWeightsSize : Nat

/-- Modelled from the spec (§3 Asset Bundle, §6 output): the bundle
returned by one load call — entities, node order, drawables, material
instances, deferred-load descriptors, per-entity light attachments,
recorded camera projection, animation data (never populated: animation is
out of scope), the per-accessor GPU buffer map, the per-image texture
map, and the full set of owned engine object ids. -/
structure FilamentAsset where
  entities : List Nat
  nodeOrder : List (Nat × Option Nat)
  drawables : List Drawable
  matInstances : List Nat
  bufferAccessors : List BufferAccessor
  pixelAccessors : List PixelAccessor
  lights : List (Nat × RawLight)
  camera : Option Nat
  animEntities : List Nat
  animSamplers : List Nat
  gpuBuffers : List (Nat × Nat)
  textures : List (Nat × Nat)
  owned : List Nat

/-- Mirrors `FilamentAsset::getEntitiesCount`. -/
def FilamentAsset.getEntitiesCount (a : FilamentAsset) : Nat :=
  a.entities.length

/-- Mirrors `FilamentAsset::getMaterialInstancesCount`. -/
def FilamentAsset.getMaterialInstancesCount (a : FilamentAsset) : Nat :=
  a.matInstances.length

/-- Mirrors `FilamentAsset::getBufferAccessorCount`. -/
def FilamentAsset.getBufferAccessorCount (a : FilamentAsset) : Nat :=
  a.bufferAccessors.length

/-- Mirrors `FilamentAsset::getPixelAccessorCount`. -/
def FilamentAsset.getPixelAccessorCount (a : FilamentAsset) : Nat :=
  a.pixelAccessors.length

/-- Mirrors `FilamentAsset::updateCamera`: writes the recorded projection
parameters (if any) into the caller's camera value. -/
def FilamentAsset.updateCamera (a : FilamentAsset) (cam : Nat) : Nat :=
  a.camera.getD cam

/-- Find the second component associated with a key in an association
list (0 when absent). -/
def assocFind (l : List (Nat × Nat)) (a : Nat) : Nat :=
  ((l.find? (fun x => x.1 = a)).map (·.2)).getD 0

/-! ## Instantiation: allocating engine objects for a plan -/

/-- Make sure every signature in the list has a template in the cache,
creating missing ones through the engine (can fail on exhaustion). -/
def ensureTemplates (c : MatCache) (e : Engine) :
    List MatSignature → Option (MatCache × Engine)
  | [] => some (c, e)
  | s :: ss =>
    match c.getOrCreate e s with
    | none => none
    | some (c', e', _) => ensureTemplates c' e' ss

/-- The kinds of the engine objects one plan allocates: one entity per
visited node, one GPU buffer per unique accessor, one texture per
referenced image, one material instance per primitive. -/
def planKinds (p : AssetPlan) : List ObjKind :=
  p.pnodes.map (fun _ => ObjKind.entity)
  ++ p.accessorKinds
  ++ p.texImages.map (fun _ => ObjKind.texture)
  ++ (p.pnodes.map (fun n => n.prims.map (fun _ => ObjKind.materialInstance))).flatten

/-- The flattened primitives of a plan, each paired with the position of
its node in visit order. -/
def flatPrims (p : AssetPlan) : List (Nat × PlannedNode × PlannedPrim) :=
  (p.pnodes.enum.map (fun kn => kn.2.prims.map (fun pr => (kn.1, kn.2, pr)))).flatten

/-- Build the drawable for one flattened primitive given the allocation
results. -/
def mkDrawable (entityIds : List Nat) (gpuOf : Nat → Nat) (miIds : List Nat)
    (ikpr : Nat × Nat × PlannedNode × PlannedPrim) : Drawable :=
  let i := ikpr.1
  let k := ikpr.2.1
  let n := ikpr.2.2.1
  let pr := ikpr.2.2.2
  { node := n.node,
    entity := entityIds.getD k 0,
    prim := pr.srcPrim,
    vertexBuffer := (pr.positionAccessor.map gpuOf).getD 0,
    indexBuffer := pr.indexAccessor.map gpuOf,
    materialInstance := miIds.getD i 0,
    inverseBindMatrices :=
      if n.hasSkin then n.skinJoints.enum.map (fun j => (n.ibmAccessor, j.1)) else [],
    jointIndicesSize := if n.hasSkin then pr.vertexCount else 0,
    jointWeightsSize := if n.hasSkin then pr.vertexCount else 0 }

/-- Assemble the bundle for a plan from the list of freshly allocated
object ids (laid out as entities, then GPU buffers, then textures, then
material instances — the `planKinds` order). -/
def mkAsset (p : AssetPlan) (ids : List Nat) : FilamentAsset :=
  let nN := p.pnodes.length
  let nA := p.accessorKinds.length
  let nT := p.texImages.length
  let entityIds := ids.take nN
  let gpuIds := ((ids.drop nN).take nA)
  let texIds := (((ids.drop nN).drop nA).take nT)
  let miIds := (((ids.drop nN).drop nA).drop nT)
  let gpuOf : Nat → Nat := fun a => assocFind (p.uniqueAccessors.zip gpuIds) a
  { entities := entityIds,
    nodeOrder := p.pnodes.map (fun n => (n.node, n.parent)),
    drawables := (flatPrims p).enum.map (mkDrawable entityIds gpuOf miIds),
    matInstances := miIds,
    bufferAccessors := p.bufferDescrs.map (fun bd =>
      { uri := bd.uri,
        vertexBuffer := if bd.isIndex then 0 else gpuIds.getD bd.accessorPos 0,
        indexBuffer := if bd.isIndex then gpuIds.getD bd.accessorPos 0 else 0,
        bufferIndex := bd.bufferViewIndex,
        byteOffset := bd.byteOffset,
        byteSize := bd.byteSize }),
    pixelAccessors := p.pixelDescrs.map (fun pd =>
      { uri := pd.uri,
        texture := texIds.getD pd.texturePos 0,
        level := 0,
        xoffset := 0,
        yoffset := 0,
        width := pd.width,
        height := pd.height }),
    lights := p.pnodes.enum.filterMap (fun kn => kn.2.light.map (fun l => (kn.1, l))),
    camera := (p.pnodes.filterMap (·.camera)).head?,
    animEntities := [],
    animSamplers := [],
    gpuBuffers := p.uniqueAccessors.zip gpuIds,
    textures := p.texImages.zip texIds,
    owned := ids }

/-- Modelled from the spec (§4.4): instantiate a plan — ensure material
templates, allocate all engine objects, and assemble the bundle.  Fails
(returning `none`) when the engine refuses an allocation. -/
def instantiate (p : AssetPlan) (c : MatCache) (e : Engine) :
    Option (MatCache × Engine × FilamentAsset) :=
  match ensureTemplates c e p.signatures with
  | none => none
  | some (c1, e1) =>
    match e1.allocList (planKinds p) with
    | none => none
    | some (e2, ids) => some (c1, e2, mkAsset p ids)

/-- Modelled from the spec (§2 control flow, §7 error handling): one load
call over an already-decoded document plus the optional embedded binary
chunk.  On any failure the call returns no bundle and every engine object
created before the failure point has been torn down — the caller-visible
outcome is the original cache and engine. -/
def loadDoc (d : RawDocument) (bin : Option (List Nat)) (c : MatCache)
    (e : Engine) : MatCache × Engine × Option FilamentAsset :=
  match planOf d bin with
  | none => (c, e, none)
  | some p =>
    match instantiate p c e with
    | none => (c, e, none)
    | some (c', e', a) => (c', e', some a)

/-! ## Text-document encoding

The document chunk of the binary container holds the text form of the
document.  Modelled from the spec (§4.1: "text-document syntactic
validity"): the text form is a flat cell encoding of the document, and
decoding validates it syntactically, failing on any malformed stream. -/

/-- Encode an optional index. -/
def encOptNat : Option Nat → List Nat
  | none => [0]
  | some n => [1, n]

/-- Encode a list with a leading length cell. -/
def encList (f : α → List Nat) (l : List α) : List Nat :=
  l.length :: (l.map f).flatten

/-- Encode an optional byte list. -/
def encOptBytes : Option (List Nat) → List Nat
  | none => [0]
  | some l => 1 :: encList (fun n => [n]) l

/-- Encode a boolean. -/
def encBool (b : Bool) : List Nat :=
  [if b then 1 else 0]

/-- Encode one node. -/
def encNode (n : RawNode) : List Nat :=
  [n.transform] ++ encOptNat n.mesh ++ encOptNat n.camera ++ encOptNat n.light
    ++ encOptNat n.skin ++ encList (fun c => [c]) n.children

/-- Encode one primitive. -/
def encPrim (p : RawPrimitive) : List Nat :=
  encList (fun a => [a.1, a.2]) p.attributes ++ encOptNat p.indices
    ++ encOptNat p.material

/-- Encode one mesh. -/
def encMesh (m : RawMesh) : List Nat :=
  encList encPrim m.primitives

/-- Encode one material. -/
def encMaterial (m : RawMaterial) : List Nat :=
  [m.shadingModel, m.baseColorFactor, m.metallicFactor, m.roughnessFactor]
    ++ encOptNat m.baseColorTexture

/-- Encode one accessor. -/
def encAccessor (a : RawAccessor) : List Nat :=
  [a.componentType, a.count] ++ encOptNat a.bufferView ++ encBool a.normalized

/-- Encode one buffer view. -/
def encBufferView (v : RawBufferView) : List Nat :=
  [v.buffer, v.byteOffset, v.byteLength]

/-- Encode one buffer. -/
def encBuffer (b : RawBuffer) : List Nat :=
  encOptBytes b.uri ++ [b.byteLength] ++ encOptBytes b.data

/-- Encode one image. -/
def encImage (i : RawImage) : List Nat :=
  encOptBytes i.uri ++ encOptNat i.bufferView ++ [i.width, i.height]

/-- Encode one skin. -/
def encSkin (s : RawSkin) : List Nat :=
  encList (fun j => [j]) s.joints ++ encOptNat s.inverseBindMatrices

/-- Encode one light. -/
def encLight (l : RawLight) : List Nat :=
  [l.lightType, l.intensity, l.color, l.range]

/-- Encode one camera. -/
def encCamera (c : RawCamera) : List Nat :=
  [c.projection]

/-- Encode a whole document as the text chunk payload. -/
def encodeDoc (d : RawDocument) : List Nat :=
  encList (fun r => [r]) d.roots ++ encList encNode d.nodes
    ++ encList encMesh d.meshes ++ encList encMaterial d.materials
    ++ encList encAccessor d.accessors ++ encList encBufferView d.bufferViews
    ++ encList encBuffer d.buffers ++ encList encImage d.images
    ++ encList encSkin d.skins ++ encList encLight d.lights
    ++ encList encCamera d.cameras

/-- Read one cell. -/
def dNat : List Nat → Option (Nat × List Nat)
  | [] => none
  | n :: r => some (n, r)

/-- Read an optional index (tag cell 0 or 1; anything else is a syntax
error). -/
def dOptNat : List Nat → Option (Option Nat × List Nat)
  | 0 :: r => some (none, r)
  | 1 :: n :: r => some (some n, r)
  | _ => none

/-- Read a boolean cell. -/
def dBool : List Nat → Option (Bool × List Nat)
  | 0 :: r => some (false, r)
  | 1 :: r => some (true, r)
  | _ => none

/-- Read exactly `n` elements with the element reader. -/
def dListN (f : List Nat → Option (α × List Nat)) :
    Nat → List Nat → Option (List α × List Nat)
  | 0, bs => some ([], bs)
  | n + 1, bs =>
    match f bs with
    | none => none
    | some (a, r) =>
      match dListN f n r with
      | none => none
      | some (as, r') => some (a :: as, r')

/-- Read a length-prefixed list. -/
def dList (f : List Nat → Option (α × List Nat)) (bs : List Nat) :
    Option (List α × List Nat) :=
  match dNat bs with
  | none => none
  | some (n, r) => dListN f n r

/-- Read an optional byte list. -/
def dOptBytes (bs : List Nat) : Option (Option (List Nat) × List Nat) :=
  match bs with
  | 0 :: r => some (none, r)
  | 1 :: r =>
    match dList dNat r with
    | none => none
    | some (l, r') => some (some l, r')
  | _ => none

/-- Read one node. -/
def dNode (bs : List Nat) : Option (RawNode × List Nat) :=
  match dNat bs with
  | none => none
  | some (t, r0) =>
  match dOptNat r0 with
  | none => none
  | some (mesh, r1) =>
  match dOptNat r1 with
  | none => none
  | some (cam, r2) =>
  match dOptNat r2 with
  | none => none
  | some (light, r3) =>
  match dOptNat r3 with
  | none => none
  | some (skin, r4) =>
  match dList dNat r4 with
  | none => none
  | some (ch, r5) =>
    some ({ transform := t, mesh := mesh, camera := cam, light := light,
            skin := skin, children := ch }, r5)

/-- Read one primitive. -/
def dPrim (bs : List Nat) : Option (RawPrimitive × List Nat) :=
  match dList (fun s =>
      match dNat s with
      | none => none
      | some (k, r) =>
        match dNat r with
        | none => none
        | some (v, r') => some ((k, v), r')) bs with
  | none => none
  | some (attrs, r0) =>
  match dOptNat r0 with
  | none => none
  | some (idx, r1) =>
  match dOptNat r1 with
  | none => none
  | some (mat, r2) =>
    some ({ attributes := attrs, indices := idx, material := mat }, r2)

/-- Read one mesh. -/
def dMesh (bs : List Nat) : Option (RawMesh × List Nat) :=
  match dList dPrim bs with
  | none => none
  | some (ps, r) => some ({ primitives := ps }, r)

/-- Read one material. -/
def dMaterial (bs : List Nat) : Option (RawMaterial × List Nat) :=
  match bs with
  | sm :: bc :: mf :: rf :: r =>
    match dOptNat r with
    | none => none
    | some (tex, r') =>
      some ({ shadingModel := sm, baseColorFactor := bc, metallicFactor := mf,
              roughnessFactor := rf, baseColorTexture := tex }, r')
  | _ => none

/-- Read one accessor. -/
def dAccessor (bs : List Nat) : Option (RawAccessor × List Nat) :=
  match bs with
  | ct :: cnt :: r =>
    match dOptNat r with
    | none => none
    | some (bv, r1) =>
      match dBool r1 with
      | none => none
      | some (nm, r2) =>
        some ({ componentType := ct, count := cnt, bufferView := bv,
                normalized := nm }, r2)
  | _ => none

/-- Read one buffer view. -/
def dBufferView (bs : List Nat) : Option (RawBufferView × List Nat) :=
  match bs with
  | b :: off :: len :: r =>
    some ({ buffer := b, byteOffset := off, byteLength := len }, r)
  | _ => none

/-- Read one buffer. -/
def dBuffer (bs : List Nat) : Option (RawBuffer × List Nat) :=
  match dOptBytes bs with
  | none => none
  | some (uri, r0) =>
  match dNat r0 with
  | none => none
  | some (len, r1) =>
  match dOptBytes r1 with
  | none => none
  | some (dat, r2) => some ({ uri := uri, byteLength := len, data := dat }, r2)

/-- Read one image. -/
def dImage (bs : List Nat) : Option (RawImage × List Nat) :=
  match dOptBytes bs with
  | none => none
  | some (uri, r0) =>
  match dOptNat r0 with
  | none => none
  | some (bv, r1) =>
  match r1 with
  | w :: h :: r2 => some ({ uri := uri, bufferView := bv, width := w, height := h }, r2)
  | _ => none

/-- Read one skin. -/
def dSkin (bs : List Nat) : Option (RawSkin × List Nat) :=
  match dList dNat bs with
  | none => none
  | some (js, r0) =>
  match dOptNat r0 with
  | none => none
  | some (ibm, r1) => some ({ joints := js, inverseBindMatrices := ibm }, r1)

/-- Read one light. -/
def dLight (bs : List Nat) : Option (RawLight × List Nat) :=
  match bs with
  | t :: i :: c :: rg :: r =>
    some ({ lightType := t, intensity := i, color := c, range := rg }, r)
  | _ => none

/-- Read one camera. -/
def dCamera (bs : List Nat) : Option (RawCamera × List Nat) :=
  match bs with
  | p :: r => some ({ projection := p }, r)
  | _ => none

/-- Modelled from the spec (§4.1): decode the text chunk payload into a
document; any malformed stream (including trailing garbage) is a syntax
error. -/
def decodeDoc (bs : List Nat) : Option RawDocument :=
  match dList dNat bs with
  | none => none
  | some (roots, r0) =>
  match dList dNode r0 with
  | none => none
  | some (nodes, r1) =>
  match dList dMesh r1 with
  | none => none
  | some (meshes, r2) =>
  match dList dMaterial r2 with
  | none => none
  | some (mats, r3) =>
  match dList dAccessor r3 with
  | none => none
  | some (accs, r4) =>
  match dList dBufferView r4 with
  | none => none
  | some (bvs, r5) =>
  match dList dBuffer r5 with
  | none => none
  | some (bufs, r6) =>
  match dList dImage r6 with
  | none => none
  | some (imgs, r7) =>
  match dList dSkin r7 with
  | none => none
  | some (skins, r8) =>
  match dList dLight r8 with
  | none => none
  | some (lights, r9) =>
  match dList dCamera r9 with
  | none => none
  | some (cams, r10) =>
    match r10 with
    | [] => some
      { roots := roots, nodes := nodes, meshes := meshes, materials := mats,
        accessors := accs, bufferViews := bvs, buffers := bufs,
        images := imgs, skins := skins, lights := lights, cameras := cams }
    | _ => none

/-! ## The loader -/

/-- Mirrors `class AssetLoader`: holds the (weakly referenced) engine
state and the owned material cache. -/
structure AssetLoader where
  engine : Engine
  cache : MatCache

/-- Mirrors the `AssetLoader(engine)` constructor: a loader over the
given engine with an empty material cache. -/
def mkAssetLoader (e : Engine) : AssetLoader :=
  { engine := e, cache := { entries := [] } }

/-- Mirrors `AssetLoader::createAssetFromJson`: load from an
already-decoded text document (no embedded binary chunk). -/
def AssetLoader.createAssetFromJson (l : AssetLoader) (d : RawDocument) :
    AssetLoader × Option FilamentAsset :=
  match loadDoc d none l.cache l.engine with
  | (c, e, a) => ({ engine := e, cache := c }, a)

/-- Mirrors `AssetLoader::createAssetFromBinary`: parse the binary
container, decode the text chunk, then load with the embedded binary
chunk (if present) supplying buffer 0. -/
def AssetLoader.createAssetFromBinary (l : AssetLoader) (bs : List Nat) :
    AssetLoader × Option FilamentAsset :=
  match parseGlb bs with
  | none => (l, none)
  | some (jsonBytes, bin) =>
    match decodeDoc jsonBytes with
    | none => (l, none)
    | some d =>
      match loadDoc d bin l.cache l.engine with
      | (c, e, a) => ({ engine := e, cache := c }, a)

/-- Mirrors `AssetLoader::destroyAsset`: destroy every engine object the
bundle owns; the material cache is untouched. -/
def AssetLoader.destroyAsset (l : AssetLoader) (a : FilamentAsset) : AssetLoader :=
  { l with engine := l.engine.destroy a.owned }

/-- Mirrors `AssetLoader::getMaterialsCount`. -/
def AssetLoader.getMaterialsCount (l : AssetLoader) : Nat :=
  l.cache.entries.length

/-- Mirrors `AssetLoader::getMaterials`: copy out at most `count` cached
material templates, returning the ones written. -/
def AssetLoader.getMaterials (l : AssetLoader) (count : Nat) : List Nat :=
  (l.cache.entries.map (·.2)).take count

/-- Mirrors `AssetLoader::destroyMaterials`: bulk-release the material
cache (templates destroyed in the engine, cache emptied). -/
def AssetLoader.destroyMaterials (l : AssetLoader) : AssetLoader :=
  match l.cache.clear l.engine with
  | (c, e) => { engine := e, cache := c }

/-- Mirrors `AssetLoader::~AssetLoader` (header: destroying the loader
does not automatically free the cache of materials): the engine — with
every cached template still alive — survives the loader. -/
def AssetLoader.destroyLoader (l : AssetLoader) : Engine :=
  l.engine

/-! ## Structural shape of a bundle (object identities erased) -/

/-- The operations a client can perform against one loader. -/
inductive LoaderOp where
  | loadJson (d : RawDocument)
  | loadBinary (bs : List Nat)
  | destroyAsset (h : Nat)
  | destroyMaterials

/-- A world: the loader, the live bundles keyed by handle, the next
fresh handle, and the ghost list of handles created by load calls. -/
structure LoaderWorld where
  loader : AssetLoader
  assets : List (Nat × FilamentAsset)
  nextHandle : Nat
  loadedHandles : List Nat

/-- Record a load result in the world: a successful load registers the
new bundle under a fresh handle (and logs the handle as load-created). -/
def recordLoad (w : LoaderWorld) (r : AssetLoader × Option FilamentAsset) :
    LoaderWorld :=
  match r with
  | (l', none) => { w with loader := l' }
  | (l', some a) =>
    { loader := l',
      assets := (w.nextHandle, a) :: w.assets,
      nextHandle := w.nextHandle + 1,
      loadedHandles := w.nextHandle :: w.loadedHandles }

/-- One step of the public API. -/
def stepOp (w : LoaderWorld) : LoaderOp → LoaderWorld
  | .loadJson d => recordLoad w (w.loader.createAssetFromJson d)
  | .loadBinary bs => recordLoad w (w.loader.createAssetFromBinary bs)
  | .destroyAsset h =>
    match w.assets.find? (fun x => x.1 = h) with
    | none => w
    | some x =>
      { w with loader := w.loader.destroyAsset x.2,
               assets := w.assets.filter (fun y => ¬ y.1 = h) }
  | .destroyMaterials => { w with loader := w.loader.destroyMaterials }

/-- Run a sequence of API operations. -/
def runOps (w : LoaderWorld) (ops : List LoaderOp) : LoaderWorld :=
  ops.foldl stepOp w

/-- The initial world: a fresh engine (no budget limit), empty cache, no
live bundles. -/
def initWorld : LoaderWorld :=
  { loader := mkAssetLoader { nextId := 0, objects := [], budget := none },
    assets := [], nextHandle := 0, loadedHandles := [] }

/-- Engine well-formedness: every live object id is below the fresh-id
counter. -/
def Engine.wf (e : Engine) : Bool :=
  e.objects.all (fun o => o.1 < e.nextId)

/-- A minimal document: one root node, one mesh primitive (position and
index accessors, one material with a base-color factor), one buffer
supplied by the container's embedded binary chunk. -/
def minimalDoc : RawDocument :=
  { roots := [0],
    nodes := [{ transform := 0, mesh := some 0, camera := none, light := none,
                skin := none, children := [] }],
    meshes := [{ primitives := [{ attributes := [(attrPosition, 0)],
                                  indices := some 1, material := some 0 }] }],
    materials := [{ shadingModel := 0, baseColorFactor := 7, metallicFactor := 0,
                    roughnessFactor := 0, baseColorTexture := none }],
    accessors := [{ componentType := 5126, count := 3, bufferView := some 0,
                    normalized := false },
                  { componentType := 5123, count := 3, bufferView := some 1,
                    normalized := false }],
    bufferViews := [{ buffer := 0, byteOffset := 0, byteLength := 36 },
                    { buffer := 0, byteOffset := 36, byteLength := 6 }],
    buffers := [{ uri := none, byteLength := 42, data := none }],
    images := [], skins := [], lights := [], cameras := [] }

/-- Wrap a document and a binary payload into a well-formed container. -/
def mkGlb (d : RawDocument) (binBytes : List Nat) : List Nat :=
  let j := encodeDoc d
  [glbMagic, glbVersion, 3 + 2 + j.length + 2 + binBytes.length, chunkJson,
    j.length] ++ j ++ [chunkBin, binBytes.length] ++ binBytes

/-- The minimal document as a binary container with its buffer bytes
embedded: the precomputed value of `mkGlb minimalDoc (List.replicate 6 0)`
(header, document chunk, binary chunk), spelled out so the kernel need
not re-run the encoder. -/
def minimalGlb : List Nat :=
  [1179937895, 2, 64, 1313821514, 51, 1, 0, 1, 0, 1, 0, 0, 0, 0, 0, 1, 1, 1,
   0, 0, 1, 1, 1, 0, 1, 0, 7, 0, 0, 0, 2, 5126, 3, 1, 0, 0, 5123, 3, 1, 1, 0,
   2, 0, 0, 36, 0, 36, 6, 1, 0, 42, 0, 0, 0, 0, 0, 5130562, 6, 0, 0, 0, 0, 0, 0]

/-- The URI bytes of the textured document's image. -/
def demoUri : List Nat := [117, 114, 105]

/-- The minimal document with its image referenced by URI (16×8 pixels)
and the material pointing at it. -/
def texturedDoc : RawDocument :=
  { minimalDoc with
    materials := [{ shadingModel := 0, baseColorFactor := 7, metallicFactor := 0,
                    roughnessFactor := 0, baseColorTexture := some 0 }],
    images := [{ uri := some demoUri, bufferView := none, width := 16, height := 8 }] }

/-- The textured document as a binary container: the precomputed value
of `mkGlb texturedDoc (List.replicate 6 0)`. -/
def texturedGlb : List Nat :=
  [1179937895, 2, 73, 1313821514, 60, 1, 0, 1, 0, 1, 0, 0, 0, 0, 0, 1, 1, 1,
   0, 0, 1, 1, 1, 0, 1, 0, 7, 0, 0, 1, 0, 2, 5126, 3, 1, 0, 0, 5123, 3, 1, 1,
   0, 2, 0, 0, 36, 0, 36, 6, 1, 0, 42, 0, 1, 1, 3, 117, 114, 105, 0, 16, 8,
   0, 0, 0, 5130562, 6, 0, 0, 0, 0, 0, 0]

/-- A skinned document: the meshed root node carries a skin referencing
two joints (nodes 1 and 0) with embedded inverse-bind matrices; the
buffer is embedded in the document itself. -/
def skinnedDoc : RawDocument :=
  { roots := [0, 1],
    nodes := [{ transform := 0, mesh := some 0, camera := none, light := none,
                skin := some 0, children := [] },
              { transform := 0, mesh := none, camera := none, light := none,
                skin := none, children := [] }],
    meshes := [{ primitives := [{ attributes := [(attrPosition, 0)],
                                  indices := some 1, material := none }] }],
    materials := [],
    accessors := [{ componentType := 5126, count := 4, bufferView := some 0,
                    normalized := false },
                  { componentType := 5123, count := 6, bufferView := some 1,
                    normalized := false },
                  { componentType := 5126, count := 2, bufferView := some 2,
                    normalized := false }],
    bufferViews := [{ buffer := 0, byteOffset := 0, byteLength := 48 },
                    { buffer := 0, byteOffset := 48, byteLength := 12 },
                    { buffer := 0, byteOffset := 60, byteLength := 128 }],
    buffers := [{ uri := none, byteLength := 188,
                  data := some (List.replicate 8 0) }],
    images := [], skins := [{ joints := [1, 0], inverseBindMatrices := some 2 }],
    lights := [], cameras := [] }

/-- The empty fresh engine. -/
def freshEngine : Engine :=
  { nextId := 0, objects := [], budget := none }

/-- A loader over the fresh engine. -/
def demoLoader : AssetLoader :=
  mkAssetLoader freshEngine

/-- The bundle of a successful `loadDoc` result (a vacant bundle when the
load failed). -/
def loadedAsset (r : MatCache × Engine × Option FilamentAsset) : FilamentAsset :=
  r.2.2.getD
    { entities := [], nodeOrder := [], drawables := [], matInstances := [],
      bufferAccessors := [], pixelAccessors := [], lights := [], camera := none,
      animEntities := [], animSamplers := [], gpuBuffers := [], textures := [],
      owned := [] }

/-- A document with a node whose child index is out of range. -/
def badChildDoc : RawDocument :=
  { minimalDoc with
    nodes := [{ transform := 0, mesh := some 0, camera := none, light := none,
                skin := none, children := [5] }] }

/-- A demonstration signature. -/
def sigDemo : MatSignature := { shadingModel := 0, hasBaseColorTexture := false }

/-- A cache holding a template for `sigDemo`. -/
def demoCache : MatCache := { entries := [(sigDemo, 5)] }

/-- An engine whose object 5 is the cached template. -/
def demoEngine6 : Engine :=
  { nextId := 6, objects := [(5, ObjKind.materialTemplate)], budget := none }

/-- The loader state after a `loadDoc` result. -/
def loaderAfter (r : MatCache × Engine × Option FilamentAsset) : AssetLoader :=
  { engine := r.2.1, cache := r.1 }

/-- The invariant of the API transition system: every live bundle handle
was created by a load call. -/
def worldInv (w : LoaderWorld) : Prop :=
  ∀ hd ∈ w.assets.map (·.1), hd ∈ w.loadedHandles


/-! ## Helper lemmas -/

theorem firstSeenF_subset :
    ∀ (fuel : Nat) (l : List Nat) (x : Nat), x ∈ firstSeenF fuel l → x ∈ l := by
  intro fuel
  induction fuel with
  | zero => intro l x h; simp [firstSeenF] at h
  | succ n ih =>
    intro l x h
    cases l with
    | nil => simp [firstSeenF] at h
    | cons y ys =>
      simp only [firstSeenF, List.mem_cons] at h
      rcases h with h | h
      · exact h ▸ List.mem_cons_self y ys
      · exact List.mem_cons_of_mem y (List.mem_of_mem_filter (ih _ _ h))

theorem firstSeenF_nodup : ∀ (fuel : Nat) (l : List Nat), (firstSeenF fuel l).Nodup := by
  intro fuel
  induction fuel with
  | zero => intro l; simp [firstSeenF]
  | succ n ih =>
    intro l
    cases l with
    | nil => simp [firstSeenF]
    | cons y ys =>
      simp only [firstSeenF, List.nodup_cons]
      refine ⟨fun hmem => ?_, ih _⟩
      have := firstSeenF_subset n _ _ hmem
      have := List.of_mem_filter this
      simp at this

theorem firstSeen_nodup (l : List Nat) : (firstSeen l).Nodup :=
  firstSeenF_nodup _ _

theorem firstSeenF_complete :
    ∀ (fuel : Nat) (l : List Nat), l.length ≤ fuel →
      ∀ x ∈ l, x ∈ firstSeenF fuel l := by
  intro fuel
  induction fuel with
  | zero =>
    intro l hl x hx
    cases l with
    | nil => simp at hx
    | cons y ys => simp at hl
  | succ n ih =>
    intro l hl x hx
    cases l with
    | nil => simp at hx
    | cons y ys =>
      simp only [firstSeenF, List.mem_cons]
      by_cases hxy : x = y
      · exact Or.inl hxy
      · refine Or.inr (ih _ ?_ x ?_)
        · calc (ys.filter (fun z => ¬ z = y)).length ≤ ys.length :=
                List.length_filter_le _ _
            _ ≤ n := by simpa using hl
        · rcases List.mem_cons.1 hx with h | h
          · exact absurd h hxy
          · exact List.mem_filter.2 ⟨h, by simpa using hxy⟩

theorem firstSeen_complete (l : List Nat) : ∀ x ∈ l, x ∈ firstSeen l :=
  firstSeenF_complete _ _ le_rfl

theorem alloc_eq {e : Engine} {k : ObjKind} {e' : Engine} {i : Nat}
    (h : e.alloc k = some (e', i)) :
    i = e.nextId ∧ e'.nextId = e.nextId + 1 ∧
      e'.objects = (e.nextId, k) :: e.objects := by
  unfold Engine.alloc at h
  rcases hb : e.budget with _ | n
  · rw [hb] at h
    simp at h
    exact ⟨h.2.symm, by rw [← h.1], by rw [← h.1]⟩
  · rw [hb] at h
    cases n with
    | zero => simp at h
    | succ m =>
      simp at h
      exact ⟨h.2.symm, by rw [← h.1], by rw [← h.1]⟩

theorem allocList_spec :
    ∀ (ks : List ObjKind) (e e' : Engine) (ids : List Nat),
      e.allocList ks = some (e', ids) →
      ids.length = ks.length ∧
      e'.nextId = e.nextId + ks.length ∧
      (∀ x ∈ ids, e.nextId ≤ x ∧ x < e'.nextId) ∧
      (∀ o ∈ e'.objects, o ∈ e.objects ∨ (o.1 ∈ ids ∧ o.2 ∈ ks)) ∧
      (∀ o ∈ e.objects, o ∈ e'.objects) := by
  intro ks
  induction ks with
  | nil =>
    intro e e' ids h
    simp [Engine.allocList] at h
    rcases h with ⟨he, hi⟩
    subst he; subst hi
    simp
  | cons k ks ih =>
    intro e e' ids h
    unfold Engine.allocList at h
    rcases h1 : e.alloc k with _ | ⟨e1, i⟩
    · rw [h1] at h; simp at h
    · rw [h1] at h
      dsimp only at h
      rcases h2 : e1.allocList ks with _ | ⟨e2, is⟩
      · rw [h2] at h; simp at h
      · rw [h2] at h
        simp at h
        rcases h with ⟨he, hi⟩
        subst he; subst hi
        obtain ⟨hi1, hn1, ho1⟩ := alloc_eq h1
        obtain ⟨hl, hn, hbnd, hobj, hgrow⟩ := ih e1 e2 is h2
        subst hi1
        refine ⟨by simp [hl], by simp only [List.length_cons]; omega, ?_, ?_, ?_⟩
        · intro x hx
          rcases List.mem_cons.1 hx with h | h
          · omega
          · have := hbnd x h; omega
        · intro o ho
          rcases hobj o ho with h | h
          · rw [ho1] at h
            rcases List.mem_cons.1 h with h | h
            · right
              constructor
              · rw [h]; exact List.mem_cons_self _ _
              · rw [h]; exact List.mem_cons_self _ _
            · exact Or.inl h
          · exact Or.inr ⟨List.mem_cons_of_mem _ h.1, List.mem_cons_of_mem _ h.2⟩
        · intro o ho
          apply hgrow
          rw [ho1]
          exact List.mem_cons_of_mem _ ho

theorem getOrCreate_of_find {c : MatCache} {e : Engine} {s : MatSignature} {t : Nat}
    (h : c.find s = some t) : c.getOrCreate e s = some (c, e, t) := by
  unfold MatCache.getOrCreate
  rw [h]

theorem getOrCreate_spec {c : MatCache} {e : Engine} {s : MatSignature}
    {c' : MatCache} {e' : Engine} {t : Nat}
    (h : c.getOrCreate e s = some (c', e', t)) :
    c'.find s = some t ∧
    (∀ s' t', c.find s' = some t' → c'.find s' = some t') ∧
    e.nextId ≤ e'.nextId ∧
    (∀ o ∈ e'.objects, o ∈ e.objects ∨
      (o.2 = ObjKind.materialTemplate ∧ e.nextId ≤ o.1 ∧ o.1 < e'.nextId)) ∧
    (∀ o ∈ e.objects, o ∈ e'.objects) := by
  unfold MatCache.getOrCreate at h
  rcases hf : c.find s with _ | t0
  · rw [hf] at h
    dsimp only at h
    rcases ha : e.alloc ObjKind.materialTemplate with _ | ⟨e1, i⟩
    · rw [ha] at h; simp at h
    · rw [ha] at h
      simp at h
      obtain ⟨hc, he, ht⟩ := h
      obtain ⟨hi, hn, ho⟩ := alloc_eq ha
      subst hc; subst he; subst hi
      refine ⟨?_, ?_, by omega, ?_, ?_⟩
      · simp [MatCache.find, List.find?, ht]
      · intro s' t' hfind
        by_cases hss : s = s'
        · rw [← hss] at hfind; rw [hf] at hfind; exact absurd hfind (by simp)
        · simp only [MatCache.find]
          rw [List.find?_cons_of_neg _ (by simp [hss])]
          exact hfind
      · intro o hoo
        rw [ho] at hoo
        rcases List.mem_cons.1 hoo with h | h
        · right
          rw [h]
          exact ⟨rfl, le_rfl, by omega⟩
        · exact Or.inl h
      · intro o hoo
        rw [ho]
        exact List.mem_cons_of_mem _ hoo
  · rw [hf] at h
    simp at h
    obtain ⟨hc, he, ht⟩ := h
    subst hc; subst he; subst ht
    exact ⟨hf, fun s' t' h => h, le_rfl, fun o ho => Or.inl ho, fun o ho => ho⟩

theorem ensureTemplates_spec :
    ∀ (ss : List MatSignature) (c : MatCache) (e : Engine)
      (c' : MatCache) (e' : Engine),
      ensureTemplates c e ss = some (c', e') →
      (∀ s' t', c.find s' = some t' → c'.find s' = some t') ∧
      e.nextId ≤ e'.nextId ∧
      (∀ o ∈ e'.objects, o ∈ e.objects ∨
        (o.2 = ObjKind.materialTemplate ∧ e.nextId ≤ o.1 ∧ o.1 < e'.nextId)) ∧
      (∀ o ∈ e.objects, o ∈ e'.objects) := by
  intro ss
  induction ss with
  | nil =>
    intro c e c' e' h
    simp [ensureTemplates] at h
    obtain ⟨hc, he⟩ := h
    subst hc; subst he
    exact ⟨fun s' t' h => h, le_rfl, fun o ho => Or.inl ho, fun o ho => ho⟩
  | cons s ss ih =>
    intro c e c' e' h
    unfold ensureTemplates at h
    rcases hg : c.getOrCreate e s with _ | ⟨⟨c1, e1, t⟩⟩
    · rw [hg] at h; simp at h
    · rw [hg] at h
      dsimp only at h
      obtain ⟨_, hpres, hle, hobj, hgrow⟩ := getOrCreate_spec hg
      obtain ⟨hpres', hle', hobj', hgrow'⟩ := ih c1 e1 c' e' h
      refine ⟨fun s' t' hf => hpres' s' t' (hpres s' t' hf), le_trans hle hle', ?_, ?_⟩
      · intro o ho
        rcases hobj' o ho with h1 | h1
        · rcases hobj o h1 with h2 | h2
          · exact Or.inl h2
          · exact Or.inr ⟨h2.1, h2.2.1, by omega⟩
        · exact Or.inr ⟨h1.1, by omega, h1.2.2⟩
      · exact fun o ho => hgrow' o (hgrow o ho)

theorem planKinds_length (p : AssetPlan) :
    (planKinds p).length =
      p.pnodes.length + p.accessorKinds.length + p.texImages.length
        + (p.pnodes.map (fun n => n.prims.length)).sum := by
  simp [planKinds, List.length_flatten, List.map_map, Function.comp_def]
  omega

theorem mkAsset_owned (p : AssetPlan) (ids : List Nat) :
    (mkAsset p ids).owned = ids := rfl

theorem planOf_eq {d : RawDocument} {bin : Option (List Nat)} {p : AssetPlan}
    (h : planOf d bin = some p) :
    checkDoc d = true ∧
    p.pnodes = (nodeOrder d).map (planNode d) ∧
    p.uniqueAccessors = firstSeen (docAccessorRefs d) ∧
    p.accessorKinds = (firstSeen (docAccessorRefs d)).map (fun a =>
      if accessorIsIndex d a then ObjKind.indexBuffer else ObjKind.vertexBuffer) ∧
    p.texImages = firstSeen (docImageRefs d) ∧
    p.bufferDescrs = (firstSeen (docAccessorRefs d)).enum.filterMap
      (fun s => accessorDescr d bin s.1 s.2) ∧
    p.pixelDescrs = (firstSeen (docImageRefs d)).enum.filterMap
      (fun s => imageDescr d s.1 s.2) := by
  unfold planOf at h
  by_cases h1 : checkDoc d = true
  · rw [if_neg (fun hc => hc h1)] at h
    by_cases h2 : (docAccessorRefs d).all (fun a =>
        match d.accessors.get? a with
        | some acc => supportedComponent acc.componentType
        | none => false) = true
    · rw [if_neg (fun hc => hc h2)] at h
      simp only [Option.some.injEq] at h
      subst h
      exact ⟨h1, rfl, rfl, rfl, rfl, rfl, rfl⟩
    · rw [if_pos h2] at h
      exact absurd h (by simp)
  · rw [if_pos h1] at h
    exact absurd h (by simp)

theorem planOf_no_template {d : RawDocument} {bin : Option (List Nat)} {p : AssetPlan}
    (h : planOf d bin = some p) : ObjKind.materialTemplate ∉ planKinds p := by
  obtain ⟨-, -, -, hkinds, -, -, -⟩ := planOf_eq h
  intro hmem
  unfold planKinds at hmem
  rcases List.mem_append.1 hmem with hm | hm
  · rcases List.mem_append.1 hm with hm2 | hm2
    · rcases List.mem_append.1 hm2 with hm3 | hm3
      · obtain ⟨_, _, hk⟩ := List.mem_map.1 hm3
        exact ObjKind.noConfusion hk
      · rw [hkinds] at hm3
        obtain ⟨acc, hacc, hk⟩ := List.mem_map.1 hm3
        by_cases hi : accessorIsIndex d acc = true
        · rw [if_pos hi] at hk; exact ObjKind.noConfusion hk
        · rw [if_neg hi] at hk; exact ObjKind.noConfusion hk
    · obtain ⟨_, _, hk⟩ := List.mem_map.1 hm2
      exact ObjKind.noConfusion hk
  · obtain ⟨l, hl, hm2⟩ := List.mem_flatten.1 hm
    obtain ⟨n, _, hln⟩ := List.mem_map.1 hl
    rw [← hln] at hm2
    obtain ⟨_, _, hk⟩ := List.mem_map.1 hm2
    exact ObjKind.noConfusion hk

theorem loadDoc_success {d : RawDocument} {bin : Option (List Nat)}
    {c : MatCache} {e : Engine} {c' : MatCache} {e' : Engine} {a : FilamentAsset}
    (h : loadDoc d bin c e = (c', e', some a)) :
    ∃ p ids,
      planOf d bin = some p ∧
      a = mkAsset p ids ∧
      ids.length = (planKinds p).length ∧
      e.nextId ≤ e'.nextId ∧
      (∀ x ∈ ids, e.nextId ≤ x ∧ x < e'.nextId) ∧
      (∀ s' t', c.find s' = some t' → c'.find s' = some t') ∧
      (e.wf = true → e'.wf = true) ∧
      (e.wf = true → ∀ i, (i, ObjKind.materialTemplate) ∈ e'.objects → i ∉ ids) := by
  unfold loadDoc at h
  rcases hp : planOf d bin with _ | p
  · rw [hp] at h; simp at h
  · rw [hp] at h
    dsimp only at h
    rcases hi : instantiate p c e with _ | ⟨⟨c1, e1, asset⟩⟩
    · rw [hi] at h; simp at h
    · rw [hi] at h
      dsimp only at h
      simp only [Prod.mk.injEq, Option.some.injEq] at h
      obtain ⟨hc, he, ha⟩ := h
      subst hc; subst he
      unfold instantiate at hi
      rcases ht : ensureTemplates c e p.signatures with _ | ⟨⟨c2, e2⟩⟩
      · rw [ht] at hi; simp at hi
      · rw [ht] at hi
        dsimp only at hi
        rcases hal : e2.allocList (planKinds p) with _ | ⟨⟨e3, ids⟩⟩
        · rw [hal] at hi; simp at hi
        · rw [hal] at hi
          simp only [Option.some.injEq, Prod.mk.injEq] at hi
          obtain ⟨hc2', he3', hasset'⟩ := hi
          subst hc2'; subst he3'
          obtain ⟨hpres, hle2, hobj2, hgrow2⟩ := ensureTemplates_spec _ _ _ _ _ ht
          obtain ⟨hlen, hn3, hbnd, hobj3, hgrow3⟩ := allocList_spec _ _ _ _ hal
          refine ⟨p, ids, rfl, by rw [← ha, hasset'], hlen, by omega, ?_, hpres, ?_, ?_⟩
          · intro x hx
            have := hbnd x hx
            omega
          · intro hwf
            simp only [Engine.wf, List.all_eq_true, decide_eq_true_eq] at hwf ⊢
            intro o ho
            rcases hobj3 o ho with h1 | h1
            · rcases hobj2 o h1 with h2 | h2
              · have := hwf o h2; omega
              · omega
            · have := hbnd o.1 h1.1; omega
          · intro hwf i hio hiid
            simp only [Engine.wf, List.all_eq_true, decide_eq_true_eq] at hwf
            rcases hobj3 _ hio with h1 | h1
            · rcases hobj2 _ h1 with h2 | h2
              · have := hwf _ h2
                have := hbnd i hiid
                simp only at this
                omega
              · have := hbnd i hiid
                simp only at this h2
                omega
            · exact absurd h1.2 (planOf_no_template hp)

theorem loadDoc_none {d : RawDocument} {bin : Option (List Nat)}
    {c : MatCache} {e : Engine}
    (h : (loadDoc d bin c e).2.2 = none) : loadDoc d bin c e = (c, e, none) := by
  unfold loadDoc at h ⊢
  rcases hp : planOf d bin with _ | p
  · rfl
  · rw [hp] at h
    dsimp only at h ⊢
    rcases hi : instantiate p c e with _ | ⟨⟨c1, e1, asset⟩⟩
    · rfl
    · rw [hi] at h
      simp at h

theorem parseChunks_truncated (ctype clen : Nat) (payload : List Nat)
    (h : payload.length < clen) :
    parseChunks (ctype :: clen :: payload) = none := by
  unfold parseChunks
  simp only [List.length_cons]
  show parseChunksF (payload.length + 1 + 1) (ctype :: clen :: payload) = none
  unfold parseChunksF
  rw [if_neg (by omega)]

/-- C1: every failure of a load call — malformed input such as a
truncated binary container, an unsupported feature, or engine resource
exhaustion — is all-or-nothing: the call returns no bundle and leaves the
loader (engine objects and cache) exactly as it was; in particular a
container whose declared chunk length exceeds the remaining bytes fails
this way. -/
theorem load_all_or_nothing (l : AssetLoader) (d : RawDocument) (bs : List Nat) :
    ((l.createAssetFromJson d).2 = none → (l.createAssetFromJson d).1 = l) ∧
    ((l.createAssetFromBinary bs).2 = none → (l.createAssetFromBinary bs).1 = l) ∧
    (∀ (ctype clen : Nat) (payload : List Nat), payload.length < clen →
      l.createAssetFromBinary
        (glbMagic :: glbVersion :: (5 + payload.length) :: ctype :: clen :: payload)
        = (l, none)) := by
  refine ⟨?_, ?_, ?_⟩
  · intro h
    unfold AssetLoader.createAssetFromJson at h ⊢
    dsimp only at h ⊢
    rw [loadDoc_none h]
  · intro h
    unfold AssetLoader.createAssetFromBinary at h ⊢
    rcases hg : parseGlb bs with _ | ⟨jsonBytes, bin⟩
    · try rw [hg]
      rfl
    · try rw [hg] at h
      try rw [hg]
      dsimp only at h ⊢
      rcases hd : decodeDoc jsonBytes with _ | d0
      · try rw [hd]
        rfl
      · try rw [hd] at h
        try rw [hd]
        dsimp only at h ⊢
        rw [loadDoc_none h]
  · intro ctype clen payload hlen
    have hglb : parseGlb (glbMagic :: glbVersion :: (5 + payload.length)
        :: ctype :: clen :: payload) = none := by
      unfold parseGlb
      dsimp only
      rw [if_pos ⟨rfl, rfl, by simp only [List.length_cons]; omega⟩]
      rw [parseChunks_truncated ctype clen payload hlen]
    unfold AssetLoader.createAssetFromBinary
    rw [hglb]

/-- Witness for C1 at a concrete truncated container. -/
theorem load_all_or_nothing_witness :
    demoLoader.createAssetFromBinary [glbMagic, glbVersion, 5, chunkJson, 5]
      = (demoLoader, none) :=
  (load_all_or_nothing demoLoader minimalDoc []).2.2 chunkJson 5 [] (by decide)

theorem optInBounds_iff {r : Option Nat} {len : Nat} :
    optInBounds r len = true ↔ ∀ i, r = some i → i < len := by
  cases r <;> simp [optInBounds]

/-- C5: every index reference in a document (roots, node children and
payload references, primitive accessor/material references, material
texture references, accessor buffer-view references, buffer-view buffer
references, image buffer-view references, skin joint and inverse-bind
references) must be strictly below the length of its target list for a
load to succeed; a document failing the bounds check is rejected as a
parse failure (the load returns no bundle and leaves the loader
untouched). -/
theorem out_of_range_rejected (l : AssetLoader) (d : RawDocument) :
    ((l.createAssetFromJson d).2.isSome = true →
      (∀ r ∈ d.roots, r < d.nodes.length) ∧
      (∀ n ∈ d.nodes,
        (∀ ch ∈ n.children, ch < d.nodes.length) ∧
        (∀ m, n.mesh = some m → m < d.meshes.length) ∧
        (∀ cm, n.camera = some cm → cm < d.cameras.length) ∧
        (∀ li, n.light = some li → li < d.lights.length) ∧
        (∀ sk, n.skin = some sk → sk < d.skins.length)) ∧
      (∀ m ∈ d.meshes, ∀ p ∈ m.primitives,
        (∀ ap ∈ p.attributes, ap.2 < d.accessors.length) ∧
        (∀ ix, p.indices = some ix → ix < d.accessors.length) ∧
        (∀ mt, p.material = some mt → mt < d.materials.length)) ∧
      (∀ mt ∈ d.materials, ∀ ti, mt.baseColorTexture = some ti →
        ti < d.images.length) ∧
      (∀ ac ∈ d.accessors, ∀ v, ac.bufferView = some v →
        v < d.bufferViews.length) ∧
      (∀ bv ∈ d.bufferViews, bv.buffer < d.buffers.length) ∧
      (∀ im ∈ d.images, ∀ v, im.bufferView = some v →
        v < d.bufferViews.length) ∧
      (∀ sk ∈ d.skins, (∀ j ∈ sk.joints, j < d.nodes.length) ∧
        (∀ ib, sk.inverseBindMatrices = some ib → ib < d.accessors.length))) ∧
    (checkDoc d = false → l.createAssetFromJson d = (l, none)) := by
  constructor
  · intro h
    unfold AssetLoader.createAssetFromJson at h
    dsimp only at h
    rw [Option.isSome_iff_exists] at h
    obtain ⟨a, ha⟩ := h
    have hld : loadDoc d none l.cache l.engine =
        ((loadDoc d none l.cache l.engine).1,
         (loadDoc d none l.cache l.engine).2.1, some a) := by
      rw [← ha]
    obtain ⟨p, ids, hp, -⟩ := loadDoc_success hld
    have hchk := (planOf_eq hp).1
    unfold checkDoc at hchk
    simp only [Bool.and_eq_true, List.all_eq_true, decide_eq_true_eq,
      optInBounds_iff] at hchk
    obtain ⟨⟨⟨⟨⟨⟨⟨h1, h2⟩, h3⟩, h4⟩, h5⟩, h6⟩, h7⟩, h8⟩ := hchk
    refine ⟨h1, ?_, ?_, h4, h5, h6, h7, ?_⟩
    · intro n hn
      have := h2 n hn
      exact ⟨this.1.1.1.1, this.1.1.1.2, this.1.1.2, this.1.2, this.2⟩
    · intro m hm p0 hp0
      have := h3 m hm p0 hp0
      exact ⟨this.1.1, this.1.2, this.2⟩
    · intro sk hsk
      exact ⟨(h8 sk hsk).1, (h8 sk hsk).2⟩
  · intro h
    unfold AssetLoader.createAssetFromJson
    dsimp only
    have hplan : planOf d none = none := by
      unfold planOf
      rw [if_pos (by simp [h])]
    have : loadDoc d none l.cache l.engine = (l.cache, l.engine, none) := by
      unfold loadDoc
      rw [hplan]
    rw [this]

/-- Witness for C5: a document with an out-of-range node-child index
fails the load and leaves the loader untouched. -/
theorem out_of_range_rejected_witness :
    demoLoader.createAssetFromJson badChildDoc = (demoLoader, none) :=
  (out_of_range_rejected demoLoader badChildDoc).2 (by decide)

/-- C7: the minimal document — one root node, one mesh primitive with
position and index accessors and one base-color material, and the buffer
embedded in the container's binary chunk — loads into a bundle with
entity count 1, material-instance count 1, buffer-accessor count 0 (data
fully embedded) and pixel-accessor count 0 (no textures referenced). -/
theorem minimal_embedded_counts :
    (demoLoader.createAssetFromBinary minimalGlb).2.map (fun a =>
      (a.getEntitiesCount, a.getMaterialInstancesCount,
       a.getBufferAccessorCount, a.getPixelAccessorCount))
      = some (1, 1, 0, 0) := by
  decide

set_option synthInstance.maxSize 2048 in
/-- C8: the same document with its image referenced by URI yields
pixel-accessor count 1, and the descriptor carries the image URI, the
destination texture handle created for that image, mip level 0 and the
full-image region (zero offsets, width and height equal to the image
dimensions 16×8). -/
theorem textured_uri_pixel_accessor :
    (demoLoader.createAssetFromBinary texturedGlb).2.map (fun a =>
      (a.getPixelAccessorCount,
       a.pixelAccessors.map (fun px =>
         (px.uri, px.level, px.xoffset, px.yoffset, px.width, px.height)),
       a.pixelAccessors.map (fun px => decide (px.texture = assocFind a.textures 0))))
      = some (1, [(demoUri, 0, 0, 0, 16, 8)], [true]) := by
  decide

/-- C4: the material cache's get-or-create is deterministic — a
signature already cached yields exactly the cached template object with
no state change; a freshly created template is returned again by the
next get-or-create of the same signature; templates survive (and stay
reachable under their signature across) whole load calls against the
same loader; and after a bulk clear, get-or-create with the same
signature returns a new object, never the old one. -/
theorem material_cache_coherent (c : MatCache) (e : Engine) (s : MatSignature) :
    (∀ t, c.find s = some t → c.getOrCreate e s = some (c, e, t)) ∧
    (∀ c' e' t, c.getOrCreate e s = some (c', e', t) →
      c'.getOrCreate e' s = some (c', e', t)) ∧
    (∀ d bin c' e' a, loadDoc d bin c e = (c', e', some a) →
      ∀ t, c.find s = some t → c'.find s = some t) ∧
    (∀ t t' c2 e2, c.find s = some t → t < e.nextId →
      (c.clear e).1.getOrCreate (c.clear e).2 s = some (c2, e2, t') → t' ≠ t) := by
  refine ⟨?_, ?_, ?_, ?_⟩
  · intro t hf
    exact getOrCreate_of_find hf
  · intro c' e' t h
    exact getOrCreate_of_find (getOrCreate_spec h).1
  · intro d bin c' e' a h t hf
    obtain ⟨p, ids, -, -, -, -, -, hpres, -, -⟩ := loadDoc_success h
    exact hpres s t hf
  · intro t t' c2 e2 hf hlt hg
    unfold MatCache.clear at hg
    dsimp only at hg
    unfold MatCache.getOrCreate at hg
    rw [show (⟨[]⟩ : MatCache).find s = none from rfl] at hg
    dsimp only at hg
    rcases ha : (e.destroy (c.entries.map (·.2))).alloc ObjKind.materialTemplate
      with _ | ⟨e3, i⟩
    · rw [ha] at hg; simp at hg
    · rw [ha] at hg
      simp only [Option.some.injEq, Prod.mk.injEq] at hg
      obtain ⟨-, -, hti⟩ := hg
      obtain ⟨hi, -, -⟩ := alloc_eq ha
      have hni : (e.destroy (c.entries.map (·.2))).nextId = e.nextId := rfl
      omega

/-- Witness for C4: the cached template is returned as-is, and after a
clear the same signature yields the fresh object 6, not the old 5. -/
theorem material_cache_coherent_witness :
    (demoCache.getOrCreate demoEngine6 sigDemo
      = some (demoCache, demoEngine6, 5)) ∧ (6 ≠ 5) :=
  ⟨(material_cache_coherent demoCache demoEngine6 sigDemo).1 5 (by decide),
   (material_cache_coherent demoCache demoEngine6 sigDemo).2.2.2 5 6
     ⟨[(sigDemo, 6)]⟩ ⟨7, [(6, ObjKind.materialTemplate)], none⟩
     (by decide) (by decide) rfl⟩

/-- C6: destroying a bundle releases every engine object it owns while
leaving the material cache and every cached material-template object
untouched; destroying the loader frees nothing; only the explicit
`destroyMaterials` empties the cache and releases the cached template
objects. -/
theorem destroy_asset_spares_cache (c : MatCache) (e : Engine)
    (d : RawDocument) (bin : Option (List Nat)) (hwf : e.wf = true)
    (hs : (loadDoc d bin c e).2.2.isSome = true) :
    (((loaderAfter (loadDoc d bin c e)).destroyAsset
        (loadedAsset (loadDoc d bin c e))).cache = (loadDoc d bin c e).1) ∧
    (∀ i k, i ∈ (loadedAsset (loadDoc d bin c e)).owned →
      (i, k) ∉ ((loaderAfter (loadDoc d bin c e)).destroyAsset
        (loadedAsset (loadDoc d bin c e))).engine.objects) ∧
    (∀ i, (i, ObjKind.materialTemplate) ∈ (loadDoc d bin c e).2.1.objects →
      (i, ObjKind.materialTemplate) ∈ ((loaderAfter (loadDoc d bin c e)).destroyAsset
        (loadedAsset (loadDoc d bin c e))).engine.objects) ∧
    ((loaderAfter (loadDoc d bin c e)).destroyLoader = (loadDoc d bin c e).2.1) ∧
    (((loaderAfter (loadDoc d bin c e)).destroyMaterials).cache.entries = []) ∧
    (∀ s t, (loadDoc d bin c e).1.find s = some t →
      ∀ k, (t, k) ∉ ((loaderAfter (loadDoc d bin c e)).destroyMaterials).engine.objects) := by
  rw [Option.isSome_iff_exists] at hs
  obtain ⟨a0, ha0⟩ := hs
  have hld : loadDoc d bin c e =
      ((loadDoc d bin c e).1, (loadDoc d bin c e).2.1, some a0) := by
    rw [← ha0]
  have hla : loadedAsset (loadDoc d bin c e) = a0 := by
    unfold loadedAsset
    rw [ha0]
    rfl
  obtain ⟨p, ids, hp, hmk, hlen, hle, hbnd, hpres, hwf', hnotempl⟩ :=
    loadDoc_success hld
  have howned : (loadedAsset (loadDoc d bin c e)).owned = ids := by
    rw [hla, hmk, mkAsset_owned]
  refine ⟨rfl, ?_, ?_, rfl, rfl, ?_⟩
  · intro i k hown hmem
    rw [howned] at hown
    unfold AssetLoader.destroyAsset loaderAfter Engine.destroy at hmem
    dsimp only at hmem
    rw [howned] at hmem
    rw [List.mem_filter] at hmem
    simp only [decide_eq_true_eq] at hmem
    exact hmem.2 hown
  · intro i hmem
    unfold AssetLoader.destroyAsset loaderAfter Engine.destroy
    dsimp only
    rw [howned]
    rw [List.mem_filter]
    refine ⟨hmem, ?_⟩
    simp only [decide_eq_true_eq]
    exact hnotempl hwf i hmem
  · intro s t hf k hmem
    unfold AssetLoader.destroyMaterials loaderAfter MatCache.clear
      Engine.destroy at hmem
    dsimp only at hmem
    rw [List.mem_filter] at hmem
    simp only [decide_eq_true_eq] at hmem
    apply hmem.2
    unfold MatCache.find at hf
    rcases hfind : List.find? (fun x => x.1 = s) (loadDoc d bin c e).1.entries
      with _ | pr
    · rw [hfind] at hf; simp at hf
    · rw [hfind] at hf
      have hpr : pr ∈ (loadDoc d bin c e).1.entries := List.mem_of_find?_eq_some hfind
      have hpt : pr.2 = t := by simpa using hf
      rw [← hpt]
      exact List.mem_map_of_mem _ hpr

/-- Witness for C6 on the minimal document loaded from a fresh engine. -/
theorem destroy_asset_spares_cache_witness :
    (((loaderAfter (loadDoc minimalDoc (some (List.replicate 6 0)) ⟨[]⟩ freshEngine)).destroyAsset
        (loadedAsset (loadDoc minimalDoc (some (List.replicate 6 0)) ⟨[]⟩ freshEngine))).cache
      = (loadDoc minimalDoc (some (List.replicate 6 0)) ⟨[]⟩ freshEngine).1) ∧
    (∀ i k, i ∈ (loadedAsset (loadDoc minimalDoc (some (List.replicate 6 0)) ⟨[]⟩ freshEngine)).owned →
      (i, k) ∉ ((loaderAfter (loadDoc minimalDoc (some (List.replicate 6 0)) ⟨[]⟩ freshEngine)).destroyAsset
        (loadedAsset (loadDoc minimalDoc (some (List.replicate 6 0)) ⟨[]⟩ freshEngine))).engine.objects) ∧
    (∀ i, (i, ObjKind.materialTemplate) ∈ (loadDoc minimalDoc (some (List.replicate 6 0)) ⟨[]⟩ freshEngine).2.1.objects →
      (i, ObjKind.materialTemplate) ∈ ((loaderAfter (loadDoc minimalDoc (some (List.replicate 6 0)) ⟨[]⟩ freshEngine)).destroyAsset
        (loadedAsset (loadDoc minimalDoc (some (List.replicate 6 0)) ⟨[]⟩ freshEngine))).engine.objects) ∧
    ((loaderAfter (loadDoc minimalDoc (some (List.replicate 6 0)) ⟨[]⟩ freshEngine)).destroyLoader
      = (loadDoc minimalDoc (some (List.replicate 6 0)) ⟨[]⟩ freshEngine).2.1) ∧
    (((loaderAfter (loadDoc minimalDoc (some (List.replicate 6 0)) ⟨[]⟩ freshEngine)).destroyMaterials).cache.entries = []) ∧
    (∀ s t, (loadDoc minimalDoc (some (List.replicate 6 0)) ⟨[]⟩ freshEngine).1.find s = some t →
      ∀ k, (t, k) ∉ ((loaderAfter (loadDoc minimalDoc (some (List.replicate 6 0)) ⟨[]⟩ freshEngine)).destroyMaterials).engine.objects) :=
  destroy_asset_spares_cache ⟨[]⟩ freshEngine minimalDoc
    (some (List.replicate 6 0)) (by decide) (by decide)

theorem resolvedIndex_keys (d : RawDocument) :
    (resolvedIndex d).map (·.1) = firstSeen (docAccessorRefs d) := by
  unfold resolvedIndex
  rw [List.map_map]
  exact List.enum_map_snd _

/-- C3: the resolver index carries each referenced accessor exactly once
(no duplicate GPU buffer per accessor), every entry's sub-range is the
accessor's underlying buffer sub-range, any two primitives referencing
the same accessor index therefore resolve to the identical byte
offset/length, every primitive-referenced accessor is covered, and in a
loaded bundle the per-accessor GPU buffer map has no duplicate accessor
keys. -/
theorem resolver_shared_subrange (d : RawDocument) :
    (((resolvedIndex d).map (·.1)).Nodup) ∧
    (∀ ent ∈ resolvedIndex d, ent.2.2 = accessorRange d ent.1) ∧
    (∀ ent1 ∈ resolvedIndex d, ∀ ent2 ∈ resolvedIndex d,
      ent1.1 = ent2.1 → ent1.2.2 = ent2.2.2) ∧
    (∀ m ∈ d.meshes, ∀ p0 ∈ m.primitives, ∀ acc ∈ primAccessors p0,
      ∃ ent ∈ resolvedIndex d, ent.1 = acc) ∧
    (∀ bin c e, (loadDoc d bin c e).2.2.isSome = true →
      ((loadedAsset (loadDoc d bin c e)).gpuBuffers.map (·.1)).Nodup) := by
  have hrange : ∀ ent ∈ resolvedIndex d, ent.2.2 = accessorRange d ent.1 := by
    intro ent hent
    unfold resolvedIndex at hent
    obtain ⟨s, hs, hent'⟩ := List.mem_map.1 hent
    rw [← hent']
  refine ⟨?_, hrange, ?_, ?_, ?_⟩
  · rw [resolvedIndex_keys]
    exact firstSeen_nodup _
  · intro ent1 h1 ent2 h2 hkey
    rw [hrange ent1 h1, hrange ent2 h2, hkey]
  · intro m hm p0 hp0 acc hacc
    have hrefs : acc ∈ docAccessorRefs d := by
      unfold docAccessorRefs
      rw [List.mem_flatten]
      refine ⟨(m.primitives.map primAccessors).flatten, List.mem_map_of_mem _ hm, ?_⟩
      rw [List.mem_flatten]
      exact ⟨primAccessors p0, List.mem_map_of_mem _ hp0, hacc⟩
    have hfs : acc ∈ firstSeen (docAccessorRefs d) := firstSeen_complete _ _ hrefs
    rw [← List.enum_map_snd (firstSeen (docAccessorRefs d))] at hfs
    obtain ⟨s, hs, hsnd⟩ := List.mem_map.1 hfs
    refine ⟨(s.2, s.1, (accessorRange d s.2).1, (accessorRange d s.2).2), ?_, hsnd⟩
    unfold resolvedIndex
    exact List.mem_map_of_mem _ hs
  · intro bin c e hs
    rw [Option.isSome_iff_exists] at hs
    obtain ⟨a0, ha0⟩ := hs
    have hld : loadDoc d bin c e =
        ((loadDoc d bin c e).1, (loadDoc d bin c e).2.1, some a0) := by
      rw [← ha0]
    obtain ⟨p, ids, hp, hmk, hlen, -⟩ := loadDoc_success hld
    have hla : loadedAsset (loadDoc d bin c e) = a0 := by
      unfold loadedAsset
      rw [ha0]
      rfl
    rw [hla, hmk]
    have hgpu : (mkAsset p ids).gpuBuffers =
        p.uniqueAccessors.zip ((ids.drop p.pnodes.length).take p.accessorKinds.length) :=
      rfl
    rw [hgpu]
    obtain ⟨-, -, huniq, hkinds, -, -, -⟩ := planOf_eq hp
    have hul : p.uniqueAccessors.length = p.accessorKinds.length := by
      rw [huniq, hkinds, List.length_map]
    have hkl := planKinds_length p
    have hgl : p.uniqueAccessors.length ≤
        ((ids.drop p.pnodes.length).take p.accessorKinds.length).length := by
      simp only [List.length_take, List.length_drop]
      omega
    rw [List.map_fst_zip _ _ hgl, huniq]
    exact firstSeen_nodup _

/-- Witness for C3: dedup holds on the minimal document and its loaded
bundle. -/
theorem resolver_shared_subrange_witness :
    ((resolvedIndex minimalDoc).map (·.1)).Nodup ∧
    ((loadedAsset (loadDoc minimalDoc none ⟨[]⟩ freshEngine)).gpuBuffers.map
      (·.1)).Nodup :=
  ⟨(resolver_shared_subrange minimalDoc).1,
   (resolver_shared_subrange minimalDoc).2.2.2.2 none ⟨[]⟩ freshEngine (by decide)⟩

theorem flatPrims_mem {p : AssetPlan} {knpr : Nat × PlannedNode × PlannedPrim}
    (h : knpr ∈ flatPrims p) :
    knpr.2.1 ∈ p.pnodes ∧ knpr.2.2 ∈ knpr.2.1.prims := by
  unfold flatPrims at h
  rw [List.mem_flatten] at h
  obtain ⟨li, hli, hmem⟩ := h
  obtain ⟨kn, hkn, hlieq⟩ := List.mem_map.1 hli
  rw [← hlieq] at hmem
  obtain ⟨pr0, hpr0, heq⟩ := List.mem_map.1 hmem
  have h2 : knpr.2.1 = kn.2 ∧ knpr.2.2 = pr0 := by
    rw [← heq]
    exact ⟨rfl, rfl⟩
  constructor
  · rw [h2.1]
    have := List.mem_map_of_mem Prod.snd hkn
    rw [List.enum_map_snd] at this
    exact this
  · rw [h2.1, h2.2]
    exact hpr0

theorem planNode_skin {d : RawDocument} {kp : Nat × Option Nat}
    {nd : RawNode} {sk : RawSkin}
    (hnd : d.nodes.get? kp.1 = some nd)
    (hsk : nd.skin.bind d.skins.get? = some sk) :
    (planNode d kp).hasSkin = true ∧ (planNode d kp).skinJoints = sk.joints := by
  unfold planNode
  rw [hnd]
  simp only [Option.getD_some]
  rw [hsk]
  simp

theorem planNode_prim_vc {d : RawDocument} {kp : Nat × Option Nat}
    {pr : PlannedPrim} (hpr : pr ∈ (planNode d kp).prims) :
    pr.vertexCount = primVertexCount d pr.srcPrim := by
  unfold planNode at hpr
  dsimp only at hpr
  rcases hm : ((d.nodes.get? kp.1).getD
      { transform := 0, mesh := none, camera := none, light := none,
        skin := none, children := [] }).mesh with _ | mi
  · rw [hm] at hpr
    simp at hpr
  · rw [hm] at hpr
    dsimp only at hpr
    rcases hm2 : d.meshes.get? mi with _ | m
    · rw [hm2] at hpr
      simp at hpr
    · rw [hm2] at hpr
      dsimp only at hpr
      obtain ⟨q, hq, hpr'⟩ := List.mem_map.1 hpr
      rw [← hpr']
      rfl

/-- C9: in a successful load, every drawable of a node carrying a skin
with N joints has exactly N inverse-bind matrices attached and its
joint-index/joint-weight vertex attributes sized to the primitive's
vertex count (the position accessor's element count), and the bundle
contains no animation entity and no animation sampler. -/
theorem skinning_attached (d : RawDocument) (bin : Option (List Nat))
    (c : MatCache) (e : Engine)
    (hs : (loadDoc d bin c e).2.2.isSome = true) :
    (∀ dr ∈ (loadedAsset (loadDoc d bin c e)).drawables,
      ∀ nd sk, d.nodes.get? dr.node = some nd →
        nd.skin.bind d.skins.get? = some sk →
        dr.inverseBindMatrices.length = sk.joints.length ∧
        dr.jointIndicesSize = primVertexCount d dr.prim ∧
        dr.jointWeightsSize = primVertexCount d dr.prim) ∧
    (loadedAsset (loadDoc d bin c e)).animEntities = [] ∧
    (loadedAsset (loadDoc d bin c e)).animSamplers = [] := by
  rw [Option.isSome_iff_exists] at hs
  obtain ⟨a0, ha0⟩ := hs
  have hld : loadDoc d bin c e =
      ((loadDoc d bin c e).1, (loadDoc d bin c e).2.1, some a0) := by
    rw [← ha0]
  obtain ⟨p, ids, hp, hmk, -⟩ := loadDoc_success hld
  have hla : loadedAsset (loadDoc d bin c e) = a0 := by
    unfold loadedAsset
    rw [ha0]
    rfl
  rw [hla, hmk]
  refine ⟨?_, rfl, rfl⟩
  intro dr hdr nd sk hnd hsk
  have hdraw : (mkAsset p ids).drawables = (flatPrims p).enum.map
      (mkDrawable ((mkAsset p ids).entities)
        (fun a => assocFind (p.uniqueAccessors.zip
          ((ids.drop p.pnodes.length).take p.accessorKinds.length)) a)
        (((ids.drop p.pnodes.length).drop p.accessorKinds.length).drop
          p.texImages.length)) := rfl
  rw [hdraw] at hdr
  obtain ⟨ik, hik, hdreq⟩ := List.mem_map.1 hdr
  have hikmem : ik.2 ∈ flatPrims p := by
    have := List.mem_map_of_mem Prod.snd hik
    rw [List.enum_map_snd] at this
    exact this
  obtain ⟨hnmem, hprmem⟩ := flatPrims_mem hikmem
  rw [(planOf_eq hp).2.1] at hnmem
  obtain ⟨kp, hkp, hneq⟩ := List.mem_map.1 hnmem
  have hnode : dr.node = ik.2.2.1.node := by rw [← hdreq]; rfl
  have hibm : dr.inverseBindMatrices =
      (if ik.2.2.1.hasSkin then
        ik.2.2.1.skinJoints.enum.map (fun j => (ik.2.2.1.ibmAccessor, j.1))
      else []) := by rw [← hdreq]; rfl
  have hjis : dr.jointIndicesSize =
      (if ik.2.2.1.hasSkin then ik.2.2.2.vertexCount else 0) := by
    rw [← hdreq]; rfl
  have hjws : dr.jointWeightsSize =
      (if ik.2.2.1.hasSkin then ik.2.2.2.vertexCount else 0) := by
    rw [← hdreq]; rfl
  have hprim : dr.prim = ik.2.2.2.srcPrim := by rw [← hdreq]; rfl
  have hkp1 : ik.2.2.1.node = kp.1 := by rw [← hneq]; rfl
  have hnd' : d.nodes.get? kp.1 = some nd := by
    rw [← hkp1, ← hnode]
    exact hnd
  obtain ⟨hhs, hsj⟩ := planNode_skin hnd' hsk
  rw [← hneq] at hprmem
  have hvc := planNode_prim_vc hprmem
  have hhs' : ik.2.2.1.hasSkin = true := hneq ▸ hhs
  have hsj' : ik.2.2.1.skinJoints = sk.joints := hneq ▸ hsj
  refine ⟨?_, ?_, ?_⟩
  · rw [hibm, if_pos hhs']
    simp [List.enum_length, hsj']
  · rw [hjis, if_pos hhs', hvc, hprim]
  · rw [hjws, if_pos hhs', hvc, hprim]

/-- Witness for C9: the skinned document's drawable carries two
inverse-bind matrices and four-vertex joint attributes. -/
theorem skinning_attached_witness :
    (∀ dr ∈ (loadedAsset (loadDoc skinnedDoc none ⟨[]⟩ freshEngine)).drawables,
      ∀ nd sk, skinnedDoc.nodes.get? dr.node = some nd →
        nd.skin.bind skinnedDoc.skins.get? = some sk →
        dr.inverseBindMatrices.length = sk.joints.length ∧
        dr.jointIndicesSize = primVertexCount skinnedDoc dr.prim ∧
        dr.jointWeightsSize = primVertexCount skinnedDoc dr.prim) ∧
    (loadedAsset (loadDoc skinnedDoc none ⟨[]⟩ freshEngine)).animEntities = [] ∧
    (loadedAsset (loadDoc skinnedDoc none ⟨[]⟩ freshEngine)).animSamplers = [] :=
  skinning_attached skinnedDoc none ⟨[]⟩ freshEngine (by decide)

theorem recordLoad_inv {w : LoaderWorld} (hw : worldInv w)
    (r : AssetLoader × Option FilamentAsset) : worldInv (recordLoad w r) := by
  rcases r with ⟨l', o⟩
  cases o with
  | none => exact hw
  | some a =>
    intro hd hmem
    simp only [recordLoad, List.map_cons, List.mem_cons] at hmem ⊢
    rcases hmem with h1 | h1
    · exact Or.inl h1
    · exact Or.inr (hw hd h1)

theorem stepOp_inv {w : LoaderWorld} (hw : worldInv w) (op : LoaderOp) :
    worldInv (stepOp w op) := by
  cases op with
  | loadJson d => exact recordLoad_inv hw _
  | loadBinary bs => exact recordLoad_inv hw _
  | destroyAsset hx =>
    unfold stepOp
    dsimp only
    rcases hf : w.assets.find? (fun x => x.1 = hx) with _ | x
    · rw [hf]
      exact hw
    · rw [hf]
      intro hd hmem
      obtain ⟨pr, hpr, hfst⟩ := List.mem_map.1 hmem
      have hpr' : pr ∈ w.assets := (List.mem_filter.1 hpr).1
      exact hw hd (hfst ▸ List.mem_map_of_mem _ hpr')
  | destroyMaterials => exact hw

/-- C10: over every sequence of public API operations, every live bundle
in existence was produced by a load call (`FilamentAsset`'s constructor
and destructor are private, so the operation type has no way to create
or destroy a bundle other than the loader's load and destroy calls). -/
theorem assets_only_from_loads (ops : List LoaderOp) :
    ∀ hd ∈ (runOps initWorld ops).assets.map (·.1),
      hd ∈ (runOps initWorld ops).loadedHandles := by
  have key : ∀ (ops' : List LoaderOp) (w : LoaderWorld),
      worldInv w → worldInv (runOps w ops') := by
    intro ops'
    induction ops' with
    | nil => intro w hw; exact hw
    | cons op rest ih =>
      intro w hw
      exact ih _ (stepOp_inv hw op)
  refine key ops initWorld ?_
  intro hd hmem
  simp [initWorld] at hmem

/-- Witness for C10: after one load, handle 0 is live and is recorded as
load-created. -/
theorem assets_only_from_loads_witness :
    0 ∈ (runOps initWorld [LoaderOp.loadJson minimalDoc]).assets.map (·.1) ∧
    0 ∈ (runOps initWorld [LoaderOp.loadJson minimalDoc]).loadedHandles :=
  ⟨by decide, assets_only_from_loads [LoaderOp.loadJson minimalDoc] 0 (by decide)⟩

end Gltfio
